import Mathlib

/-!
Shallow embedding of `FastAPI.vx.py`, a single-file project scaffolding
script.  Paths are lists of path components; a file's content is its list
of lines (the file's bytes are the lines joined with a newline), so a
Python triple-quoted template that ends in a newline becomes a list whose
last element is the empty string.  The mutable process state (filesystem,
current working directory, printed output) is threaded explicitly, and the
external `alembic init alembic` subprocess is a parameter describing its
observable behaviour (success with some filesystem effect, non-zero exit,
or a raised exception).
-/

/-- A filesystem path, as a list of components (no separators). -/
abbrev FsPath := List String

/-- Filesystem state: directories, files (path with content lines, most
recent write first) and file modes set by `os.chmod` (most recent first). -/
structure FS where
  dirs : List FsPath
  files : List (FsPath × List String)
  modes : List (FsPath × Nat)

/-- The empty filesystem. -/
def FS.init : FS := ⟨[], [], []⟩

/-- Process state: filesystem, current working directory, printed lines. -/
structure World where
  fs : FS
  cwd : FsPath
  out : List String

/-- Initial process state: empty filesystem, root working directory. -/
def World.init : World := ⟨FS.init, [], []⟩

/-- `Path.exists`: some entry (directory or file) is present at `p`. -/
def pathExists (fs : FS) (p : FsPath) : Bool :=
  fs.dirs.any (fun d => d == p) || fs.files.any (fun e => e.1 == p)

/-- Content of the file at `p`, honouring last-write-wins. -/
def readFile (fs : FS) (p : FsPath) : Option (List String) :=
  (fs.files.find? (fun e => e.1 == p)).map (fun e => e.2)

/-- Mode of the file at `p` as set by the most recent `os.chmod`. -/
def fileMode (fs : FS) (p : FsPath) : Option Nat :=
  (fs.modes.find? (fun e => e.1 == p)).map (fun e => e.2)

/-- Render a path the way Python prints a `PosixPath`. -/
def pathToString (p : FsPath) : String := String.intercalate "/" p

/-- Render a lines list back into the file's byte content. -/
def renderLines (l : List String) : String := String.intercalate "\n" l

/-- Append one printed line to the output transcript. -/
def printLine (w : World) (s : String) : World :=
  { w with out := w.out ++ [s] }

/-- The nonempty proper prefixes of a path, shortest first (the ancestor
directories `Path.mkdir(parents=True)` creates when missing). -/
def properPrefixes : FsPath → List FsPath
  | [] => []
  | [_] => []
  | a :: rest => [a] :: (properPrefixes rest).map (fun q => a :: q)

/-- Add directory `q` unless it is already present. -/
def insertDirIfAbsent (fs : FS) (q : FsPath) : FS :=
  if fs.dirs.any (fun d => d == q) then fs else { fs with dirs := fs.dirs ++ [q] }

/-- Create the missing ancestors of `p` (the `parents=True` behaviour). -/
def addParents (fs : FS) (p : FsPath) : FS :=
  (properPrefixes p).foldl insertDirIfAbsent fs

/-- `Path.mkdir(parents=..., exist_ok=...)`: raises `FileExistsError` when a
file occupies the path, or when a directory does and `exist_ok` is false;
raises `FileNotFoundError` when the parent is missing and `parents` is
false; otherwise creates the directory (and, with `parents`, every missing
ancestor). -/
def FS.mkdir (fs : FS) (p : FsPath) (parents exist_ok : Bool) : Except String FS :=
  if fs.files.any (fun e => e.1 == p) then
    .error "FileExistsError"
  else if fs.dirs.any (fun d => d == p) then
    if exist_ok then .ok fs else .error "FileExistsError"
  else if !parents && p.length > 1 && !(fs.dirs.any (fun d => d == p.dropLast)) then
    .error "FileNotFoundError"
  else
    let fs := if parents then addParents fs p else fs
    .ok { fs with dirs := fs.dirs ++ [p] }

/-- Observable behaviour of the external command `alembic init alembic`:
it may succeed (applying some effect to the filesystem, given the working
directory it is run in), exit non-zero with some stderr text, or raise. -/
inductive AlembicBehavior where
  | succeeds (effect : FsPath → FS → FS) (stdout : String)
  | exitsNonzero (stderr : String)
  | raises

/-- Source `run_command`: run the command, return its stdout on success;
on a non-zero exit print two error lines and return `none`; any other
exception propagates (`Except.error` carries the state at the raise). -/
def run_command (b : AlembicBehavior) (command : String) (w : World) :
    Except World (Option String × World) :=
  match b with
  | .succeeds effect stdout => .ok (some stdout, { w with fs := effect w.cwd w.fs })
  | .exitsNonzero stderr =>
      .ok (none, { w with out := w.out ++
        ["Error running command: " ++ command, "Error: " ++ stderr] })
  | .raises => .error w

/-- Source literal `pyproject_content` (lines of the template). -/
def pyproject_content : List String :=
  ["[build-system]",
   "requires = [\"setuptools>=45\", \"wheel\"]",
   "build-backend = \"setuptools.build_meta\"",
   "",
   "[project]",
   "name = \"fastapi-sqlite-app\"",
   "version = \"0.1.0\"",
   "description = \"FastAPI application with SQLite and Alembic\"",
   "requires-python = \">=3.8\"",
   "dependencies = [",
   "    \"fastapi>=0.100.0\",",
   "    \"uvicorn[standard]>=0.20.0\",",
   "    \"sqlalchemy>=2.0.0\",",
   "    \"aiosqlite>=0.19.0\",",
   "    \"alembic>=1.11.0\",",
   "    \"pydantic[email]>=2.0.0\",",
   "    \"python-dotenv>=1.0.0\",",
   "]",
   "",
   "[project.optional-dependencies]",
   "dev = [",
   "    \"pytest>=7.0.0\",",
   "    \"pytest-asyncio>=0.21.0\",",
   "    \"httpx>=0.24.0\",",
   "]",
   "",
   "[tool.setuptools.packages.find]",
   "include = [\"app*\"]",
   "exclude = [\"alembic*\"]",
   ""]

/-- Source literal `env_content` (the generated `.env` file). -/
def env_content : List String :=
  ["DATABASE_URL=\"sqlite+aiosqlite:///./app.db\"",
   ""]

/-- Source literal `alembic_ini_content` defined inside
`create_project_files` (never written: it is absent from
`files_to_create`). -/
def alembic_ini_content : List String :=
  ["[alembic]",
   "script_location = alembic",
   "sqlalchemy.url = sqlite:///./app.db",
   "",
   "[handlers]",
   "keys = console",
   "",
   "[loggers]",
   "keys = root, sqlalchemy, alembic",
   "",
   "[logger_root]",
   "level = WARN",
   "handlers = console",
   "",
   "[logger_sqlalchemy]",
   "level = WARN",
   "handlers = console",
   "qualname = sqlalchemy.engine",
   "propagate = 0",
   "",
   "[logger_alembic]",
   "level = INFO",
   "handlers = console",
   "qualname = alembic",
   "propagate = 0",
   "",
   "[logging]",
   "level = INFO",
   "",
   "[formatters]",
   "keys = generic",
   "",
   "[formatter_generic]",
   "format = %(asctime)s %(name)s %(levelname)s: %(message)s",
   "datefmt = %Y-%m-%d %H:%M:%S",
   "",
   "[handler_console]",
   "class = StreamHandler",
   "args = (sys.stdout,)",
   "level = NOTSET",
   "formatter = generic",
   ""]

/-- Source literal `base_content` (`app/db/base.py`). -/
def base_content : List String :=
  ["from sqlalchemy.orm import DeclarativeBase",
   "",
   "class Base(DeclarativeBase):",
   "    pass",
   ""]

/-- Source literal `session_content` (`app/db/session.py`). -/
def session_content : List String :=
  ["import os",
   "from typing import AsyncGenerator",
   "from dotenv import load_dotenv, find_dotenv",
   "from sqlalchemy.ext.asyncio import create_async_engine, async_sessionmaker, AsyncSession",
   "",
   "# Auto-detect and load the nearest .env",
   "load_dotenv(find_dotenv())",
   "",
   "DATABASE_URL = os.getenv(\"DATABASE_URL\", \"sqlite+aiosqlite:///./app.db\")",
   "",
   "# Create async engine with improved configuration",
   "engine = create_async_engine(",
   "    DATABASE_URL,",
   "    future=True,",
   "    pool_pre_ping=True,",
   "    echo=os.getenv(\"DB_ECHO\", \"false\").lower() == \"true\"  # Enable SQL logging via env var",
   ")",
   "",
   "# Create session factory",
   "AsyncSessionLocal = async_sessionmaker(",
   "    engine,",
   "    expire_on_commit=False,",
   "    class_=AsyncSession",
   ")",
   "",
   "async def get_session() -> AsyncGenerator[AsyncSession, None]:",
   "    \"\"\"",
   "    Dependency function to get database session.",
   "    Properly handles session lifecycle with error handling.",
   "    \"\"\"",
   "    async with AsyncSessionLocal() as session:",
   "        try:",
   "            yield session",
   "        except Exception:",
   "            await session.rollback()",
   "            raise",
   "        finally:",
   "            await session.close()",
   ""]

/-- Source literal `models_content` (`app/models/user.py`). -/
def models_content : List String :=
  ["# db/models.py",
   "",
   "from sqlalchemy import Column, Integer, String, Boolean, Table, ForeignKey",
   "from sqlalchemy.orm import relationship",
   "from app.db.base import Base",
   "",
   "# Association table for many-to-many relationship",
   "user_permissions = Table(",
   "    \"user_permissions\",",
   "    Base.metadata,",
   "    Column(\"user_id\", ForeignKey(\"users.id\"), primary_key=True),",
   "    Column(\"permission_id\", ForeignKey(\"permissions.id\"), primary_key=True)",
   ")",
   "",
   "class User(Base):",
   "    __tablename__ = \"users\"",
   "",
   "    id = Column(Integer, primary_key=True, index=True)",
   "    username = Column(String, unique=True, index=True)",
   "    email = Column(String, unique=True, index=True)",
   "    password = Column(String)",
   "    is_active = Column(Boolean, default=True)",
   "",
   "    permissions = relationship(\"Permission\", secondary=user_permissions, back_populates=\"users\")",
   "",
   "",
   "class Permission(Base):",
   "    __tablename__ = \"permissions\"",
   "",
   "    id = Column(Integer, primary_key=True, index=True)",
   "    name = Column(String, unique=True, index=True)",
   "    description = Column(String)",
   "",
   "    users = relationship(\"User\", secondary=user_permissions, back_populates=\"permissions\")",
   ""]

/-- Source literal `schemas_content` (`app/schemas/user.py`). -/
def schemas_content : List String :=
  ["from typing import List, Optional",
   "from pydantic import BaseModel, EmailStr",
   "",
   "",
   "class PermissionResponse(BaseModel):",
   "    id: int",
   "    name: str",
   "    description: Optional[str] = None",
   "",
   "    class Config:",
   "        from_attributes = True",
   "",
   "",
   "class UserResponse(BaseModel):",
   "    id: int",
   "    username: str",
   "    email: str",
   "    is_active: bool",
   "    permissions: List[PermissionResponse] = []",
   "",
   "    class Config:",
   "        from_attributes = True",
   ""]

/-- Source literal `main_content` (`app/main.py`). -/
def main_content : List String :=
  ["from fastapi import FastAPI",
   "",
   "app = FastAPI(",
   "    title=\"FastAPI SQLite App\",",
   "    description=\"A FastAPI application with SQLite, SQLAlchemy, and Alembic\",",
   "    version=\"1.0.0\"",
   ")",
   "",
   "@app.get(\"/\")",
   "async def root():",
   "    return \x7b\"message\": \"FastAPI SQLite App is running!\"\x7d",
   "",
   "@app.get(\"/health\")",
   "async def health_check():",
   "    return \x7b\"status\": \"healthy\"\x7d",
   ""]

/-- Source literal `init_content` (the empty `__init__.py` files). -/
def init_content : List String := [""]

/-- Source literal `alembic_ini_content` defined inside
`update_alembic_config` (the text actually written to `alembic.ini`). -/
def update_alembic_ini_content : List String :=
  ["[alembic]",
   "script_location = alembic",
   "sqlalchemy.url = sqlite:///./app.db",
   "",
   "[handlers]",
   "keys = console",
   "",
   "[loggers]",
   "keys = root, sqlalchemy, alembic",
   "",
   "[logger_root]",
   "level = WARN",
   "handlers = console",
   "",
   "[logger_sqlalchemy]",
   "level = WARN",
   "handlers = console",
   "qualname = sqlalchemy.engine",
   "propagate = 0",
   "",
   "[logger_alembic]",
   "level = INFO",
   "handlers = console",
   "qualname = alembic",
   "propagate = 0",
   "",
   "[logging]",
   "level = INFO",
   "",
   "[formatters]",
   "keys = generic",
   "",
   "[formatter_generic]",
   "format = %(asctime)s %(name)s %(levelname)s: %(message)s",
   "datefmt = %Y-%m-%d %H:%M:%S",
   "",
   "[handler_console]",
   "class = StreamHandler",
   "args = (sys.stdout,)",
   "level = NOTSET",
   "formatter = generic",
   ""]

/-- Source literal `env_py_content` (the text written to
`alembic/env.py` by `update_alembic_config`). -/
def env_py_content : List String :=
  ["import asyncio",
   "import os,sys",
   "from logging.config import fileConfig",
   "",
   "from sqlalchemy import engine_from_config",
   "from sqlalchemy import pool",
   "from sqlalchemy.ext.asyncio import create_async_engine",
   "",
   "from alembic import context",
   "",
   "# Add the project root to sys.path",
   "sys.path.append(os.path.abspath(os.path.join(os.path.dirname(__file__), '..')))",
   "",
   "from app.db.base import Base",
   "from app.models.user import User, Permission",
   "",
   "# this is the Alembic Config object, which provides",
   "# access to the values within the .ini file in use.",
   "config = context.config",
   "",
   "# Interpret the config file for Python logging.",
   "# This line sets up loggers basically.",
   "if config.config_file_name is not None:",
   "    fileConfig(config.config_file_name)",
   "",
   "# add your model's MetaData object here",
   "# for 'autogenerate' support",
   "target_metadata = Base.metadata",
   "",
   "# other values from the config, defined by the needs of env.py,",
   "# can be acquired:",
   "# my_important_option = config.get_main_option(\"my_important_option\")",
   "# ... etc.",
   "",
   "",
   "def run_migrations_offline() -> None:",
   "    \"\"\"Run migrations in 'offline' mode.",
   "",
   "    This configures the context with just a URL",
   "    and not an Engine, though an Engine is acceptable",
   "    here as well.  By skipping the Engine creation",
   "    we don't even need a DBAPI to be available.",
   "",
   "    Calls to context.execute() here emit the given string to the",
   "    script output.",
   "",
   "    \"\"\"",
   "    url = config.get_main_option(\"sqlalchemy.url\")",
   "    context.configure(",
   "        url=url,",
   "        target_metadata=target_metadata,",
   "        literal_binds=True,",
   "        dialect_opts=\x7b\"paramstyle\": \"named\"\x7d,",
   "    )",
   "",
   "    with context.begin_transaction():",
   "        context.run_migrations()",
   "",
   "",
   "def run_migrations_online() -> None:",
   "    \"\"\"Run migrations in 'online' mode.",
   "",
   "    In this scenario we need to create an Engine",
   "    and associate a connection with the context.",
   "",
   "    \"\"\"",
   "    # Get the database URL from config",
   "    database_url = config.get_main_option(\"sqlalchemy.url\")",
   "",
   "    # Check if it's an async URL",
   "    if database_url and \"aiosqlite\" in database_url:",
   "        # Use async engine for aiosqlite",
   "        asyncio.run(run_async_migrations())",
   "    else:",
   "        # Use synchronous engine for regular sqlite",
   "        connectable = engine_from_config(",
   "            config.get_section(config.config_ini_section, \x7b\x7d),",
   "            prefix=\"sqlalchemy.\",",
   "            poolclass=pool.NullPool,",
   "        )",
   "",
   "        with connectable.connect() as connection:",
   "            context.configure(",
   "                connection=connection, target_metadata=target_metadata",
   "            )",
   "",
   "            with context.begin_transaction():",
   "                context.run_migrations()",
   "",
   "",
   "async def run_async_migrations() -> None:",
   "    \"\"\"Run migrations with async engine.\"\"\"",
   "    connectable = create_async_engine(",
   "        config.get_main_option(\"sqlalchemy.url\"),",
   "        poolclass=pool.NullPool,",
   "    )",
   "",
   "    async with connectable.connect() as connection:",
   "        await connection.run_sync(do_run_migrations)",
   "",
   "    await connectable.dispose()",
   "",
   "",
   "def do_run_migrations(connection):",
   "    \"\"\"Helper function to run migrations in sync context.\"\"\"",
   "    context.configure(connection=connection, target_metadata=target_metadata)",
   "",
   "    with context.begin_transaction():",
   "        context.run_migrations()",
   "",
   "",
   "if context.is_offline_mode():",
   "    run_migrations_offline()",
   "else:",
   "    run_migrations_online()",
   ""]

/-- Source literal `windows_setup` (`setup.bat`). -/
def windows_setup : List String :=
  ["@echo off",
   "echo Setting up FastAPI SQLite project...",
   "",
   "echo Installing dependencies...",
   "pip install -e .",
   "",
   "echo Initializing Alembic...",
   "alembic init alembic",
   "",
   "echo Setting up database...",
   "alembic revision -m \"Initial migration\" --autogenerate",
   "alembic upgrade head",
   "",
   "echo Setup complete!",
   "echo.",
   "echo To run the application:",
   "echo uvicorn app.main:app --reload --port 8000",
   "echo.",
   "echo API will be available at: http://localhost:8000",
   "pause",
   ""]

/-- Source literal `linux_setup` (`setup.sh`). -/
def linux_setup : List String :=
  ["#!/bin/bash",
   "echo \"Setting up FastAPI SQLite project...\"",
   "",
   "echo \"Installing dependencies...\"",
   "pip install -e .",
   "",
   "echo \"Initializing Alembic...\"",
   "alembic init alembic",
   "",
   "echo \"Setting up database...\"",
   "alembic revision -m \"Initial migration\" --autogenerate",
   "alembic upgrade head",
   "",
   "echo \"Setup complete!\"",
   "echo \"\"",
   "echo \"To run the application:\"",
   "echo \"uvicorn app.main:app --reload --port 8000\"",
   "echo \"\"",
   "echo \"API will be available at: http://localhost:8000\"",
   ""]

/-- Source f-string `readme_content` in `create_readme`: the fixed README
template with `project_name` substituted at its four placeholder sites. -/
def readme_lines (project_name : String) : List String :=
  ["# " ++ project_name,
   "",
   "A FastAPI project with SQLite, async SQLAlchemy, and Alembic migrations.",
   "",
   "## Quick Setup",
   "",
   "### Windows",
   "```cmd",
   "cd " ++ project_name,
   "setup.bat",
   "```",
   "",
   "### Linux/Ubuntu",
   "```bash",
   "cd " ++ project_name,
   "./setup.sh",
   "```",
   "",
   "## Manual Setup",
   "",
   "1. **Install dependencies:**",
   "   ```bash",
   "   pip install -e .",
   "   ```",
   "",
   "2. **Set up database:**",
   "   ```bash",
   "   alembic revision -m \"Initial migration\" --autogenerate",
   "   alembic upgrade head",
   "   ```",
   "",
   "3. **Run the application:**",
   "   ```bash",
   "   uvicorn app.main:app --reload --port 8000",
   "   ```",
   "",
   "## Project Structure",
   "",
   "```",
   project_name ++ "/",
   "├── .env                        # Environment variables",
   "├── pyproject.toml              # Python project configuration",
   "├── alembic.ini                 # Alembic configuration",
   "├── app.db                      # SQLite database (created after setup)",
   "├── setup.bat                   # Windows setup script",
   "├── setup.sh                    # Linux setup script",
   "├── alembic/                    # Alembic migration files",
   "│   ├── env.py                  # Alembic environment (async support)",
   "│   └── versions/               # Migration files",
   "└── app/                        # Main application code",
   "    ├── main.py                 # FastAPI entry point",
   "    ├── db/",
   "    │   ├── base.py             # SQLAlchemy base",
   "    │   └── session.py          # Async session management",
   "    ├── models/",
   "    │   └── user.py             # User and Permission models",
   "    ├── schemas/                # Pydantic schemas",
   "    │   └── user.py             # User response schemas",
   "    └── api/",
   "        └── v1/                 # API version 1",
   "```",
   "",
   "## Available Endpoints",
   "",
   "- `GET /` - Root endpoint",
   "- `GET /health` - Health check",
   "- API Documentation: http://localhost:8000/docs",
   "",
   "## Database Models",
   "",
   "- **Users**: id, username, email, password, is_active",
   "- **Permissions**: id, name, description",
   "- **User-Permission**: Many-to-many relationship",
   "",
   "## Development Commands",
   "",
   "```bash",
   "# Create new migration",
   "alembic revision -m \"description\" --autogenerate",
   "",
   "# Apply migrations",
   "alembic upgrade head",
   "",
   "# Check migration status",
   "alembic current",
   "",
   "# View database tables",
   "sqlite3 app.db \".tables\"",
   "```",
   "",
   "## Environment Variables",
   "",
   "Create/modify `.env` file:",
   "```",
   "DATABASE_URL=\"sqlite+aiosqlite:///./app.db\"",
   "DB_ECHO=\"false\"  # Set to \"true\" for SQL logging",
   "```",
   ""]

/-- Usage message, first line. -/
def usage_line_1 : String := "Usage: python create_project.py <project_name>"

/-- Usage message, second line. -/
def usage_line_2 : String := "Example: python create_project.py my_fastapi_app"

/-- Message printed when the target path already exists. -/
def already_exists_line (project_name : String) : String :=
  "Error: Directory '" ++ project_name ++ "' already exists!"

/-- Banner printed at the start of a run. -/
def creating_line (project_name : String) : String :=
  "Creating FastAPI SQLite project: " ++ project_name

/-- Platform line printed at the start of a run. -/
def platform_line (plat : String) : String := "Platform: " ++ plat

/-- Warning printed when Alembic initialization fails. -/
def warning_line : String :=
  "WARNING: Alembic initialization failed. You'll need to run 'alembic init alembic' manually."

/-- The final multi-line completion message (one `print` call). -/
def final_message (project_name : String) : String :=
  "\nSUCCESS: Project '" ++ project_name ++ "' created successfully!\n\nNext steps:\n  1. cd "
    ++ project_name
    ++ "\n  2. Run setup script:\n     Windows: setup.bat\n     Linux:   ./setup.sh\n  3. Start coding!\n\nThe application will be available at: http://localhost:8000\n"

/-- The five hard-coded directories of `create_directory_structure`. -/
def directories (base_path : FsPath) : List FsPath :=
  [base_path,
   base_path ++ ["app", "api", "v1"],
   base_path ++ ["app", "db"],
   base_path ++ ["app", "models"],
   base_path ++ ["app", "schemas"]]

/-- The loop body of `create_directory_structure`: make each directory
with `parents=True, exist_ok=True`, printing one line per directory; a
raised error carries the state at the raise. -/
def createDirsLoop (ds : List FsPath) (w : World) : Except (String × World) World :=
  match ds with
  | [] => .ok w
  | d :: rest =>
      match w.fs.mkdir (w.cwd ++ d) true true with
      | .error e => .error (e, w)
      | .ok fs' =>
          createDirsLoop rest
            { w with fs := fs', out := w.out ++ ["Created directory: " ++ pathToString d] }

/-- Source `create_directory_structure`: create the fixed directory tree
and return the base path. -/
def create_directory_structure (project_name : String) (w : World) :
    Except (String × World) (FsPath × World) :=
  match createDirsLoop (directories [project_name]) w with
  | .error e => .error e
  | .ok w' => .ok ([project_name], w')

/-- Source `create_file`: write (or overwrite) the file and print one
line; the path is resolved against the current working directory. -/
def create_file (w : World) (file_path : FsPath) (content : List String) : World :=
  { w with
    fs := { w.fs with files := (w.cwd ++ file_path, content) :: w.fs.files },
    out := w.out ++ ["Created file: " ++ pathToString file_path] }

/-- Source `files_to_create`: the 13 (path, content) pairs written by
`create_project_files` (`alembic.ini` and `alembic/env.py` deliberately
excluded). -/
def files_to_create (base_path : FsPath) : List (FsPath × List String) :=
  [(base_path ++ ["pyproject.toml"], pyproject_content),
   (base_path ++ [".env"], env_content),
   (base_path ++ ["app", "__init__.py"], init_content),
   (base_path ++ ["app", "db", "__init__.py"], init_content),
   (base_path ++ ["app", "db", "base.py"], base_content),
   (base_path ++ ["app", "db", "session.py"], session_content),
   (base_path ++ ["app", "models", "__init__.py"], init_content),
   (base_path ++ ["app", "models", "user.py"], models_content),
   (base_path ++ ["app", "schemas", "__init__.py"], init_content),
   (base_path ++ ["app", "schemas", "user.py"], schemas_content),
   (base_path ++ ["app", "api", "__init__.py"], init_content),
   (base_path ++ ["app", "api", "v1", "__init__.py"], init_content),
   (base_path ++ ["app", "main.py"], main_content)]

/-- Source `create_project_files`: write every pair of `files_to_create`. -/
def create_project_files (base_path : FsPath) (w : World) : World :=
  (files_to_create base_path).foldl (fun w e => create_file w e.1 e.2) w

/-- Source `init_alembic`: print a banner, save the working directory,
change into the project, run `alembic init alembic`, report success or
failure, and restore the working directory on every exit path (the
`finally` block), including a propagating exception. -/
def init_alembic (b : AlembicBehavior) (base_path : FsPath) (w : World) :
    Except World (Bool × World) :=
  let w := printLine w "Initializing Alembic..."
  let original_dir := w.cwd
  let w := { w with cwd := w.cwd ++ base_path }
  match run_command b "alembic init alembic" w with
  | .ok (some _, w') =>
      .ok (true, { printLine w' "SUCCESS: Alembic initialized successfully" with cwd := original_dir })
  | .ok (none, w') =>
      .ok (false, { printLine w' "ERROR: Failed to initialize Alembic" with cwd := original_dir })
  | .error w' => .error { w' with cwd := original_dir }

/-- Source `update_alembic_config`: unconditionally overwrite
`alembic.ini` and `alembic/env.py` with the two fixed literal templates. -/
def update_alembic_config (base_path : FsPath) (w : World) : World :=
  let w := printLine w "Updating Alembic configuration..."
  let w := create_file w (base_path ++ ["alembic.ini"]) update_alembic_ini_content
  create_file w (base_path ++ ["alembic", "env.py"]) env_py_content

/-- Source `os.chmod`: record the new mode of the file at `p`. -/
def chmod (w : World) (p : FsPath) (mode : Nat) : World :=
  { w with fs := { w.fs with modes := (w.cwd ++ p, mode) :: w.fs.modes } }

/-- Source `create_setup_scripts`: write `setup.bat` and `setup.sh`, then
mark `setup.sh` executable unless the platform is Windows. -/
def create_setup_scripts (plat : String) (base_path : FsPath) (w : World) : World :=
  let w := create_file w (base_path ++ ["setup.bat"]) windows_setup
  let w := create_file w (base_path ++ ["setup.sh"]) linux_setup
  if plat != "Windows" then chmod w (base_path ++ ["setup.sh"]) 0o755 else w

/-- Source `create_readme`: write the project-specific README. -/
def create_readme (base_path : FsPath) (project_name : String) (w : World) : World :=
  create_file w (base_path ++ ["README.md"]) (readme_lines project_name)

/-- Outcome of a whole run: normal termination with an exit code, or an
uncaught exception (stack trace, failure status). -/
inductive RunResult where
  | exited (code : Nat) (w : World)
  | crashed (w : World)

/-- The final process state of a run, whichever way it ended. -/
def RunResult.world : RunResult → World
  | .exited _ w => w
  | .crashed w => w

/-- The exit code of a run: `none` when it crashed. -/
def RunResult.code : RunResult → Option Nat
  | .exited c _ => some c
  | .crashed _ => none

namespace Script

/-- Source `main`: argument check, pre-existence check, directory builder,
file emitter, Alembic initialization (configuration patched only on
success, warning printed on failure), setup scripts, README, completion
message.  `argv` includes the script name; `plat` is `platform.system()`;
`b` is the external tool's behaviour. -/
def main (argv : List String) (plat : String) (b : AlembicBehavior) (w : World) : RunResult :=
  match argv with
  | [_, project_name] =>
      if pathExists w.fs (w.cwd ++ [project_name]) then
        .exited 1 (printLine w (already_exists_line project_name))
      else
        let w := printLine (printLine (printLine w (creating_line project_name)) (platform_line plat)) ""
        match create_directory_structure project_name w with
        | .error (_, we) => .crashed we
        | .ok (base_path, w) =>
            let w := create_project_files base_path w
            match init_alembic b base_path w with
            | .error we => .crashed we
            | .ok (ok, w) =>
                let w := if ok then update_alembic_config base_path w else printLine w warning_line
                let w := create_setup_scripts plat base_path w
                let w := create_readme base_path project_name w
                .exited 0 (printLine w (final_message project_name))
  | _ => .exited 1 (printLine (printLine w usage_line_1) usage_line_2)

end Script

/-- Directories present after `create_directory_structure` on an empty
filesystem (creation order, ancestors included). -/
def fail_dirs (pn : String) : List FsPath :=
  [[pn],
   [pn, "app"],
   [pn, "app", "api"],
   [pn, "app", "api", "v1"],
   [pn, "app", "db"],
   [pn, "app", "models"],
   [pn, "app", "schemas"]]

/-- The files written by `create_project_files` on an empty filesystem,
most recent write first. -/
def emitted_files (pn : String) : List (FsPath × List String) :=
  [([pn, "app", "main.py"], main_content),
   ([pn, "app", "api", "v1", "__init__.py"], init_content),
   ([pn, "app", "api", "__init__.py"], init_content),
   ([pn, "app", "schemas", "user.py"], schemas_content),
   ([pn, "app", "schemas", "__init__.py"], init_content),
   ([pn, "app", "models", "user.py"], models_content),
   ([pn, "app", "models", "__init__.py"], init_content),
   ([pn, "app", "db", "session.py"], session_content),
   ([pn, "app", "db", "base.py"], base_content),
   ([pn, "app", "db", "__init__.py"], init_content),
   ([pn, "app", "__init__.py"], init_content),
   ([pn, ".env"], env_content),
   ([pn, "pyproject.toml"], pyproject_content)]

/-- All files present after a run in which `alembic init` failed, most
recent write first. -/
def fail_files (pn : String) : List (FsPath × List String) :=
  ([pn, "README.md"], readme_lines pn)
    :: ([pn, "setup.sh"], linux_setup)
    :: ([pn, "setup.bat"], windows_setup)
    :: emitted_files pn

/-- The transcript of a run in which `alembic init` exited non-zero. -/
def fail_out (pn plat err : String) : List String :=
  [creating_line pn,
   platform_line plat,
   "",
   "Created directory: " ++ pathToString [pn],
   "Created directory: " ++ pathToString [pn, "app", "api", "v1"],
   "Created directory: " ++ pathToString [pn, "app", "db"],
   "Created directory: " ++ pathToString [pn, "app", "models"],
   "Created directory: " ++ pathToString [pn, "app", "schemas"],
   "Created file: " ++ pathToString [pn, "pyproject.toml"],
   "Created file: " ++ pathToString [pn, ".env"],
   "Created file: " ++ pathToString [pn, "app", "__init__.py"],
   "Created file: " ++ pathToString [pn, "app", "db", "__init__.py"],
   "Created file: " ++ pathToString [pn, "app", "db", "base.py"],
   "Created file: " ++ pathToString [pn, "app", "db", "session.py"],
   "Created file: " ++ pathToString [pn, "app", "models", "__init__.py"],
   "Created file: " ++ pathToString [pn, "app", "models", "user.py"],
   "Created file: " ++ pathToString [pn, "app", "schemas", "__init__.py"],
   "Created file: " ++ pathToString [pn, "app", "schemas", "user.py"],
   "Created file: " ++ pathToString [pn, "app", "api", "__init__.py"],
   "Created file: " ++ pathToString [pn, "app", "api", "v1", "__init__.py"],
   "Created file: " ++ pathToString [pn, "app", "main.py"],
   "Initializing Alembic...",
   "Error running command: alembic init alembic",
   "Error: " ++ err,
   "ERROR: Failed to initialize Alembic",
   warning_line,
   "Created file: " ++ pathToString [pn, "setup.bat"],
   "Created file: " ++ pathToString [pn, "setup.sh"],
   "Created file: " ++ pathToString [pn, "README.md"],
   final_message pn]

/-- Final process state of a run in which `alembic init` exited non-zero. -/
def failWorld (pn plat err : String) : World :=
  ⟨⟨fail_dirs pn,
    fail_files pn,
    if plat != "Windows" then [([pn, "setup.sh"], 0o755)] else []⟩,
   [],
   fail_out pn plat err⟩

lemma main_fail_eq (pn plat err : String) :
    Script.main ["create_project.py", pn] plat (.exitsNonzero err) World.init =
      .exited 0 (failWorld pn plat err) := by
  by_cases hw : plat = "Windows" <;>
    simp [Script.main, World.init, FS.init, pathExists, printLine, creating_line, platform_line,
      create_directory_structure, createDirsLoop, directories, FS.mkdir, addParents,
      properPrefixes, insertDirIfAbsent, pathToString, create_project_files, files_to_create,
      create_file, init_alembic, run_command, update_alembic_config, create_setup_scripts,
      chmod, create_readme, failWorld, fail_dirs, fail_files, emitted_files, fail_out,
      Except.map, List.cons_beq_cons, hw]

/-- The transcript of a run in which `alembic init` succeeded. -/
def succ_out (pn plat : String) : List String :=
  [creating_line pn,
   platform_line plat,
   "",
   "Created directory: " ++ pathToString [pn],
   "Created directory: " ++ pathToString [pn, "app", "api", "v1"],
   "Created directory: " ++ pathToString [pn, "app", "db"],
   "Created directory: " ++ pathToString [pn, "app", "models"],
   "Created directory: " ++ pathToString [pn, "app", "schemas"],
   "Created file: " ++ pathToString [pn, "pyproject.toml"],
   "Created file: " ++ pathToString [pn, ".env"],
   "Created file: " ++ pathToString [pn, "app", "__init__.py"],
   "Created file: " ++ pathToString [pn, "app", "db", "__init__.py"],
   "Created file: " ++ pathToString [pn, "app", "db", "base.py"],
   "Created file: " ++ pathToString [pn, "app", "db", "session.py"],
   "Created file: " ++ pathToString [pn, "app", "models", "__init__.py"],
   "Created file: " ++ pathToString [pn, "app", "models", "user.py"],
   "Created file: " ++ pathToString [pn, "app", "schemas", "__init__.py"],
   "Created file: " ++ pathToString [pn, "app", "schemas", "user.py"],
   "Created file: " ++ pathToString [pn, "app", "api", "__init__.py"],
   "Created file: " ++ pathToString [pn, "app", "api", "v1", "__init__.py"],
   "Created file: " ++ pathToString [pn, "app", "main.py"],
   "Initializing Alembic...",
   "SUCCESS: Alembic initialized successfully",
   "Updating Alembic configuration...",
   "Created file: " ++ pathToString [pn, "alembic.ini"],
   "Created file: " ++ pathToString [pn, "alembic", "env.py"],
   "Created file: " ++ pathToString [pn, "setup.bat"],
   "Created file: " ++ pathToString [pn, "setup.sh"],
   "Created file: " ++ pathToString [pn, "README.md"],
   final_message pn]

/-- Final process state of a run in which `alembic init` succeeded with
filesystem effect `eff` (applied in the project directory). -/
def succWorld (pn plat : String) (eff : FsPath → FS → FS) : World :=
  let fsMid := eff [pn] ⟨fail_dirs pn, emitted_files pn, []⟩
  ⟨⟨fsMid.dirs,
    ([pn, "README.md"], readme_lines pn)
      :: ([pn, "setup.sh"], linux_setup)
      :: ([pn, "setup.bat"], windows_setup)
      :: ([pn, "alembic", "env.py"], env_py_content)
      :: ([pn, "alembic.ini"], update_alembic_ini_content)
      :: fsMid.files,
    if plat != "Windows" then ([pn, "setup.sh"], (0o755 : Nat)) :: fsMid.modes else fsMid.modes⟩,
   [],
   succ_out pn plat⟩

lemma main_succ_eq (pn plat sout : String) (eff : FsPath → FS → FS) :
    Script.main ["create_project.py", pn] plat (.succeeds eff sout) World.init =
      .exited 0 (succWorld pn plat eff) := by
  by_cases hw : plat = "Windows" <;>
    simp [Script.main, World.init, FS.init, pathExists, printLine, creating_line, platform_line,
      create_directory_structure, createDirsLoop, directories, FS.mkdir, addParents,
      properPrefixes, insertDirIfAbsent, pathToString, create_project_files, files_to_create,
      create_file, init_alembic, run_command, update_alembic_config, create_setup_scripts,
      chmod, create_readme, succWorld, fail_dirs, emitted_files, succ_out,
      Except.map, List.cons_beq_cons, hw]

/-- The state carried by either outcome of the directory-builder loop. -/
def dirsResWorld : Except (String × World) World → World
  | .ok w => w
  | .error (_, w) => w

/-- The state carried by either outcome of `init_alembic`. -/
def initResWorld : Except World (Bool × World) → World
  | .ok (_, w) => w
  | .error w => w

@[simp] lemma printLine_cwd (w : World) (s : String) : (printLine w s).cwd = w.cwd := rfl

@[simp] lemma create_file_cwd (w : World) (p : FsPath) (c : List String) :
    (create_file w p c).cwd = w.cwd := rfl

@[simp] lemma create_project_files_cwd (bp : FsPath) (w : World) :
    (create_project_files bp w).cwd = w.cwd := rfl

@[simp] lemma update_alembic_config_cwd (bp : FsPath) (w : World) :
    (update_alembic_config bp w).cwd = w.cwd := rfl

@[simp] lemma chmod_cwd (w : World) (p : FsPath) (m : Nat) : (chmod w p m).cwd = w.cwd := rfl

@[simp] lemma create_setup_scripts_cwd (plat : String) (bp : FsPath) (w : World) :
    (create_setup_scripts plat bp w).cwd = w.cwd := by
  unfold create_setup_scripts
  split <;> rfl

@[simp] lemma create_readme_cwd (bp : FsPath) (pn : String) (w : World) :
    (create_readme bp pn w).cwd = w.cwd := rfl

lemma createDirsLoop_cwd (ds : List FsPath) (w : World) :
    (dirsResWorld (createDirsLoop ds w)).cwd = w.cwd := by
  induction ds generalizing w with
  | nil => rfl
  | cons d rest ih =>
      simp only [createDirsLoop]
      split
      · rfl
      · exact ih _

lemma init_alembic_cwd (b : AlembicBehavior) (base : FsPath) (w : World) :
    (initResWorld (init_alembic b base w)).cwd = w.cwd := by
  cases b <;> rfl

lemma main_cwd (argv : List String) (plat : String) (b : AlembicBehavior) (w : World) :
    ((Script.main argv plat b w).world).cwd = w.cwd := by
  rcases argv with _ | ⟨a, _ | ⟨pn, _ | ⟨c, rest⟩⟩⟩
  · rfl
  · rfl
  · simp only [Script.main]
    split
    · rfl
    · cases hcl : createDirsLoop (directories [pn])
          (printLine (printLine (printLine w (creating_line pn)) (platform_line plat)) "") with
      | error ew =>
          obtain ⟨e, we⟩ := ew
          have h := createDirsLoop_cwd (directories [pn])
            (printLine (printLine (printLine w (creating_line pn)) (platform_line plat)) "")
          rw [hcl] at h
          simp only [create_directory_structure, hcl, RunResult.world]
          simpa [dirsResWorld] using h
      | ok w2 =>
          have h2 : w2.cwd = w.cwd := by
            have h := createDirsLoop_cwd (directories [pn])
              (printLine (printLine (printLine w (creating_line pn)) (platform_line plat)) "")
            rw [hcl] at h
            simpa [dirsResWorld] using h
          simp only [create_directory_structure, hcl]
          cases hia : init_alembic b [pn] (create_project_files [pn] w2) with
          | error we =>
              have h := init_alembic_cwd b [pn] (create_project_files [pn] w2)
              rw [hia] at h
              simp only [initResWorld, create_project_files_cwd] at h
              simpa [RunResult.world, h] using h2
          | ok bw =>
              obtain ⟨okFlag, w4⟩ := bw
              have h4 : w4.cwd = w2.cwd := by
                have h := init_alembic_cwd b [pn] (create_project_files [pn] w2)
                rw [hia] at h
                simpa [initResWorld] using h
              cases okFlag <;>
                simp [RunResult.world, h4, h2]
  · rfl

@[simp] lemma beq_append_left (xs ys zs : List String) : ((xs ++ ys) == (xs ++ zs)) = (ys == zs) := by
  induction xs with
  | nil => rfl
  | cons a rest ih => simp [List.cons_beq_cons, ih]

lemma foldl_insertDir_files (qs : List FsPath) (fs : FS) :
    (qs.foldl insertDirIfAbsent fs).files = fs.files := by
  induction qs generalizing fs with
  | nil => rfl
  | cons q rest ih =>
      simp only [List.foldl]
      rw [ih]
      unfold insertDirIfAbsent
      split <;> rfl

lemma addParents_files (fs : FS) (p : FsPath) : (addParents fs p).files = fs.files :=
  foldl_insertDir_files _ _

/-- Prefix check on character lists. -/
def listPrefixOf : List Char → List Char → Bool
  | [], _ => true
  | _ :: _, [] => false
  | a :: as, b :: bs => a == b && listPrefixOf as bs

/-- Substring check on character lists. -/
def listContains (pat : List Char) : List Char → Bool
  | [] => listPrefixOf pat []
  | c :: rest => listPrefixOf pat (c :: rest) || listContains pat rest

/-- The contents `update_alembic_config` writes on a fresh state when the
project is named `pn` (paths stripped, write order preserved). -/
def patchedContents (pn : String) : List (List String) :=
  (update_alembic_config [pn] World.init).fs.files.map Prod.snd

/-- C5, counterexample: the claim asserts that for some pair of distinct
project names the bytes written by the Config Patcher differ between the
two runs; in fact both templates are fixed literals, so no such pair
exists. -/
theorem spec_c5_counterexample :
    ¬ ∃ pn₁ pn₂ : String, pn₁ ≠ pn₂ ∧ patchedContents pn₁ ≠ patchedContents pn₂ := by
  rintro ⟨p1, p2, -, hd⟩
  exact hd rfl

/-- C5, amended: the Config Patcher overwrites exactly `alembic.ini` and
`alembic/env.py` under the project root with two fixed literal templates;
the destination paths depend on the project name but the bytes written are
identical for every project name. -/
theorem spec_c5 (pn : String) :
    (update_alembic_config [pn] World.init).fs.files =
      [(([pn, "alembic", "env.py"] : FsPath), env_py_content),
       (([pn, "alembic.ini"] : FsPath), update_alembic_ini_content)] ∧
    ∀ pn' : String, patchedContents pn = patchedContents pn' :=
  ⟨rfl, fun _ => rfl⟩

/-- C9: the generated `.env` file is among the emitted files and its
content is exactly `DATABASE_URL="sqlite+aiosqlite:///./app.db"` followed
by a newline, with no `DB_ECHO` entry. -/
theorem spec_c9 :
    (files_to_create ["demo"]).contains ((["demo", ".env"] : FsPath), env_content) = true ∧
    renderLines env_content = "DATABASE_URL=\"sqlite+aiosqlite:///./app.db\"\n" ∧
    listContains "DB_ECHO".data (renderLines env_content).data = false := by
  refine ⟨by decide, by decide, by decide⟩

/-- C10: the first line of the generated README is the heading
`# <project name>`; concretely, for `"my_app"` it is `# my_app`. -/
theorem spec_c10 :
    (readme_lines "my_app").head? = some "# my_app" ∧
    ∀ pn : String, (readme_lines pn).head? = some ("# " ++ pn) :=
  ⟨by decide, fun _ => rfl⟩

/-- C8: the Directory Builder's set of directories is the fixed list of
five, and `mkdir` with `exist_ok=True` cannot fail because of a
pre-existing directory: on any filesystem with no file at `p`, creating
`p` succeeds, and immediately creating it again succeeds and changes
nothing. -/
theorem spec_c8 (pn : String) (fs : FS) (p : FsPath)
    (h : fs.files.any (fun e => e.1 == p) = false) :
    (directories [pn]).length = 5 ∧
    ∃ fs', FS.mkdir fs p true true = .ok fs' ∧ FS.mkdir fs' p true true = .ok fs' := by
  refine ⟨rfl, ?_⟩
  by_cases hd : fs.dirs.any (fun d => d == p) = true
  · exact ⟨fs, by simp [FS.mkdir, h, hd], by simp [FS.mkdir, h, hd]⟩
  · have hd' : fs.dirs.any (fun d => d == p) = false := Bool.eq_false_iff.mpr hd
    refine ⟨{ addParents fs p with dirs := (addParents fs p).dirs ++ [p] }, ?_, ?_⟩
    · simp [FS.mkdir, h, hd']
    · simp [FS.mkdir, addParents_files, h]

/-- C8 witness: a concrete instantiation on the empty filesystem. -/
theorem spec_c8_witness :
    (directories ["demo"]).length = 5 ∧
    ∃ fs', FS.mkdir FS.init ["demo"] true true = .ok fs' ∧
      FS.mkdir fs' ["demo"] true true = .ok fs' :=
  spec_c8 "demo" FS.init ["demo"] rfl

/-- C3: on a wrong argument count, or when an entry already exists at the
requested project path, the run exits with status 1, leaves the filesystem
and working directory untouched, and only appends messages to the output. -/
theorem spec_c3 (argv : List String) (plat : String) (b : AlembicBehavior) (w : World)
    (h : argv.length ≠ 2 ∨ ∃ a pn, argv = [a, pn] ∧ pathExists w.fs (w.cwd ++ [pn]) = true) :
    ∃ w', Script.main argv plat b w = .exited 1 w' ∧ w'.fs = w.fs ∧ w'.cwd = w.cwd ∧
      ∃ msgs, msgs ≠ [] ∧ w'.out = w.out ++ msgs := by
  rcases argv with _ | ⟨a, _ | ⟨pn, _ | ⟨c, rest⟩⟩⟩
  · exact ⟨_, rfl, rfl, rfl, [usage_line_1, usage_line_2], by simp, by simp [printLine]⟩
  · exact ⟨_, rfl, rfl, rfl, [usage_line_1, usage_line_2], by simp, by simp [printLine]⟩
  · rcases h with h | ⟨a', pn', heq, hex⟩
    · simp at h
    · have hpair : a = a' ∧ pn = pn' := by simpa using heq
      obtain ⟨rfl, rfl⟩ := hpair
      refine ⟨printLine w (already_exists_line pn), ?_, rfl, rfl,
        [already_exists_line pn], by simp, by simp [printLine]⟩
      simp [Script.main, hex]
  · rcases h with h | ⟨a', pn', heq, hex⟩
    · exact ⟨_, rfl, rfl, rfl, [usage_line_1, usage_line_2], by simp, by simp [printLine]⟩
    · simp at heq

/-- C3 witness: a concrete usage-error invocation. -/
theorem spec_c3_witness :
    ∃ w', Script.main ["create_project.py"] "Linux" .raises World.init = .exited 1 w' ∧
      w'.fs = World.init.fs ∧ w'.cwd = World.init.cwd ∧
      ∃ msgs, msgs ≠ [] ∧ w'.out = World.init.out ++ msgs :=
  spec_c3 ["create_project.py"] "Linux" .raises World.init (Or.inl (by decide))

/-- C4: `init_alembic` restores the saved working directory on every exit
path (success, failure, raised exception), and consequently the working
directory after any whole run of `main` equals the working directory
before it. -/
theorem spec_c4 (b : AlembicBehavior) (base : FsPath) (w : World)
    (argv : List String) (plat : String) (b₂ : AlembicBehavior) (w₂ : World) :
    (initResWorld (init_alembic b base w)).cwd = w.cwd ∧
    ((Script.main argv plat b₂ w₂).world).cwd = w₂.cwd :=
  ⟨init_alembic_cwd b base w, main_cwd argv plat b₂ w₂⟩

/-- C7: `create_setup_scripts` writes `setup.bat` and `setup.sh` on every
platform; on a non-Windows platform the most recent `chmod` on `setup.sh`
sets mode `0o755`, and on Windows the chmod step is skipped (the recorded
modes are unchanged) without error. -/
theorem spec_c7 (plat : String) (base : FsPath) (w : World) :
    readFile (create_setup_scripts plat base w).fs (w.cwd ++ (base ++ ["setup.bat"])) =
      some windows_setup ∧
    readFile (create_setup_scripts plat base w).fs (w.cwd ++ (base ++ ["setup.sh"])) =
      some linux_setup ∧
    (plat ≠ "Windows" →
      fileMode (create_setup_scripts plat base w).fs (w.cwd ++ (base ++ ["setup.sh"])) =
        some 0o755) ∧
    (plat = "Windows" → (create_setup_scripts plat base w).fs.modes = w.fs.modes) := by
  by_cases hp : plat = "Windows" <;>
    simp [create_setup_scripts, create_file, chmod, readFile, fileMode, hp,
      List.find?, List.cons_beq_cons]

/-- C7 witness: concrete Linux and Windows instantiations. -/
theorem spec_c7_witness :
    fileMode (create_setup_scripts "Linux" ["demo"] World.init).fs
      (World.init.cwd ++ (["demo"] ++ ["setup.sh"])) = some 0o755 ∧
    (create_setup_scripts "Windows" ["demo"] World.init).fs.modes = World.init.fs.modes := by
  refine ⟨?_, ?_⟩
  · exact (spec_c7 "Linux" ["demo"] World.init).2.2.1 (by decide)
  · exact (spec_c7 "Windows" ["demo"] World.init).2.2.2 rfl

/-- C6: the File Emitter's list has exactly 13 entries, none of them at
`alembic.ini`, and on a run in which Alembic initialization fails no file
at `<project>/alembic.ini` exists in the final state. -/
theorem spec_c6 (base : FsPath) (pn plat err : String) :
    (files_to_create base).length = 13 ∧
    (∀ e ∈ files_to_create base, e.1 ≠ base ++ ["alembic.ini"]) ∧
    (∀ c, (([pn, "alembic.ini"] : FsPath), c) ∉
      (Script.main ["create_project.py", pn] plat (.exitsNonzero err) World.init).world.fs.files) := by
  refine ⟨rfl, ?_, ?_⟩
  · intro e he
    fin_cases he <;> simp
  · intro c hc
    rw [main_fail_eq] at hc
    simp [RunResult.world, failWorld, fail_files, emitted_files] at hc

/-- C6 witness: concrete instantiation of the quantified parts. -/
theorem spec_c6_witness :
    (files_to_create ["demo"]).length = 13 ∧
    ((["demo"] ++ ["pyproject.toml"] : FsPath), pyproject_content).1 ≠ ["demo"] ++ ["alembic.ini"] ∧
    ((["demo", "alembic.ini"] : FsPath), alembic_ini_content) ∉
      (Script.main ["create_project.py", "demo"] "Linux" (.exitsNonzero "boom")
        World.init).world.fs.files := by
  obtain ⟨h1, h2, h3⟩ := spec_c6 ["demo"] "demo" "Linux" "boom"
  exact ⟨h1, h2 _ (by simp [files_to_create]), h3 _⟩

/-- C2, counterexample: the claim asserts that on an Alembic-init failure
the run still produces `alembic.ini`; concretely, for project `"demo"` the
run completes with exit code 0 but no entry exists at `demo/alembic.ini`. -/
theorem spec_c2_counterexample :
    (Script.main ["create_project.py", "demo"] "Linux" (.exitsNonzero "boom")
      World.init).code = some 0 ∧
    pathExists (Script.main ["create_project.py", "demo"] "Linux" (.exitsNonzero "boom")
      World.init).world.fs ["demo", "alembic.ini"] = false := by
  decide

/-- C2, amended: when `alembic init` exits non-zero, the run still exits
with code 0, still writes every file of `files_to_create` plus
`setup.bat`, `setup.sh` and `README.md`, and still prints the final
completion message — but `alembic.ini` (written only by the Config
Patcher, which is skipped) is not produced. -/
theorem spec_c2 (pn plat err : String) :
    (Script.main ["create_project.py", pn] plat (.exitsNonzero err) World.init).code = some 0 ∧
    (∀ e ∈ files_to_create [pn],
      readFile (Script.main ["create_project.py", pn] plat (.exitsNonzero err)
        World.init).world.fs e.1 = some e.2) ∧
    readFile (Script.main ["create_project.py", pn] plat (.exitsNonzero err)
      World.init).world.fs [pn, "setup.bat"] = some windows_setup ∧
    readFile (Script.main ["create_project.py", pn] plat (.exitsNonzero err)
      World.init).world.fs [pn, "setup.sh"] = some linux_setup ∧
    readFile (Script.main ["create_project.py", pn] plat (.exitsNonzero err)
      World.init).world.fs [pn, "README.md"] = some (readme_lines pn) ∧
    pathExists (Script.main ["create_project.py", pn] plat (.exitsNonzero err)
      World.init).world.fs [pn, "alembic.ini"] = false ∧
    (Script.main ["create_project.py", pn] plat (.exitsNonzero err)
      World.init).world.out.getLast? = some (final_message pn) := by
  rw [main_fail_eq]
  refine ⟨rfl, ?_, ?_, ?_, ?_, ?_, ?_⟩
  · intro e he
    fin_cases he <;>
      simp [RunResult.world, failWorld, fail_files, emitted_files, readFile,
        List.find?, List.cons_beq_cons]
  · simp [RunResult.world, failWorld, fail_files, emitted_files, readFile,
      List.find?, List.cons_beq_cons]
  · simp [RunResult.world, failWorld, fail_files, emitted_files, readFile,
      List.find?, List.cons_beq_cons]
  · simp [RunResult.world, failWorld, fail_files, emitted_files, readFile,
      List.find?, List.cons_beq_cons]
  · simp [RunResult.world, failWorld, fail_dirs, fail_files, emitted_files, pathExists,
      List.cons_beq_cons]
  · simp [RunResult.world, failWorld, fail_out]

/-- C2 witness: the concrete `"demo"` failure run, with the `.env` entry
instantiating the quantifier. -/
theorem spec_c2_witness :
    (Script.main ["create_project.py", "demo"] "Linux" (.exitsNonzero "boom")
      World.init).code = some 0 ∧
    readFile (Script.main ["create_project.py", "demo"] "Linux" (.exitsNonzero "boom")
      World.init).world.fs (["demo"] ++ [".env"]) = some env_content := by
  obtain ⟨h1, h2, -⟩ := spec_c2 "demo" "Linux" "boom"
  exact ⟨h1, h2 (["demo"] ++ [".env"], env_content) (by simp [files_to_create])⟩

/-- C1, counterexample: for the concrete failing run on project `"demo"`
the argument check passes (the run completes with exit code 0), yet the
Config Patcher did not execute: `demo/alembic/env.py` was never written
and its banner line was never printed. -/
theorem spec_c1_counterexample :
    (Script.main ["create_project.py", "demo"] "Linux" (.exitsNonzero "boom")
      World.init).code = some 0 ∧
    readFile (Script.main ["create_project.py", "demo"] "Linux" (.exitsNonzero "boom")
      World.init).world.fs ["demo", "alembic", "env.py"] = none ∧
    (Script.main ["create_project.py", "demo"] "Linux" (.exitsNonzero "boom")
      World.init).world.out.contains "Updating Alembic configuration..." = false := by
  decide

/-- C1, amended: the success/failure outcome of the Alembic-initialization
step determines whether the Config Patcher runs: `update_alembic_config`
executes exactly when initialization succeeds (overwriting `alembic.ini`
and `alembic/env.py` and printing its banner); on failure only a warning
is printed and the patcher is skipped, while the setup-script and README
steps still run in both cases. -/
theorem spec_c1 (pn plat err sout : String) (eff : FsPath → FS → FS) :
    readFile (Script.main ["create_project.py", pn] plat (.exitsNonzero err)
      World.init).world.fs [pn, "alembic", "env.py"] = none ∧
    warning_line ∈ (Script.main ["create_project.py", pn] plat (.exitsNonzero err)
      World.init).world.out ∧
    readFile (Script.main ["create_project.py", pn] plat (.succeeds eff sout)
      World.init).world.fs [pn, "alembic", "env.py"] = some env_py_content ∧
    readFile (Script.main ["create_project.py", pn] plat (.succeeds eff sout)
      World.init).world.fs [pn, "alembic.ini"] = some update_alembic_ini_content ∧
    "Updating Alembic configuration..." ∈ (Script.main ["create_project.py", pn] plat
      (.succeeds eff sout) World.init).world.out ∧
    readFile (Script.main ["create_project.py", pn] plat (.exitsNonzero err)
      World.init).world.fs [pn, "README.md"] = some (readme_lines pn) ∧
    readFile (Script.main ["create_project.py", pn] plat (.succeeds eff sout)
      World.init).world.fs [pn, "README.md"] = some (readme_lines pn) := by
  rw [main_fail_eq, main_succ_eq]
  refine ⟨?_, ?_, ?_, ?_, ?_, ?_, ?_⟩
  · simp [RunResult.world, failWorld, fail_files, emitted_files, readFile,
      List.find?, List.cons_beq_cons]
  · simp [RunResult.world, failWorld, fail_out]
  · simp [RunResult.world, succWorld, readFile, List.find?, List.cons_beq_cons]
  · simp [RunResult.world, succWorld, readFile, List.find?, List.cons_beq_cons]
  · simp [RunResult.world, succWorld, succ_out]
  · simp [RunResult.world, failWorld, fail_files, emitted_files, readFile,
      List.find?, List.cons_beq_cons]
  · simp [RunResult.world, succWorld, readFile, List.find?, List.cons_beq_cons]
